import Mathlib

/-!
A shallow embedding of `src/netmon.js` (class `NetworkMonitor`), the
connection-lifecycle core of this repository.

Modelling conventions:
* Physical transports (`WebSocket` objects) are identified by natural
  numbers; `nextWs` is the fresh-id counter, so `new WebSocket(endpoint)`
  allocates id `nextWs`.
* Handlers and response callbacks are opaque and identified by naturals;
  invoking one is recorded as an `Eff` (effect) rather than executed.
* JavaScript runs callbacks in run-to-completion turns: a promise
  continuation chain flushes as microtasks before the next event fires.
  Each Lean step function below is one such atomic burst, straight from
  the source: an event handler body together with the `await`
  continuations it synchronously unblocks.  The `reconnect` loop is
  therefore represented by an explicit suspension point (`LoopState`):
  awaiting endpoint resolution, awaiting a socket's open handshake, or
  sleeping in the 1-second retry backoff.
* Timers carry their delay in milliseconds as written in the source
  (`setTimeout(..., 10000)`, `setTimeout(resolve, 1000)`).
* Binary frames are `List Nat` byte sequences (each entry one byte of the
  Node `Buffer`); text frames are abstracted to their parsed `id` field,
  the only part of the parsed JSON this core inspects.
-/

namespace Netmon

/-- Where the single reconnect IIFE of `reconnect()` is suspended.
`idle` means `this.connectPromise === null`.  `stale` is the state the
source reaches when the IIFE's body completes synchronously (its
`while (this.pendingConnect)` guard is false on entry, so no `await` is
ever reached): the inner `this.connectPromise = null` executes first and
the outer assignment `this.connectPromise = (async () => {...})()` then
overwrites it with the already-resolved promise — `connectPromise` is
permanently non-null, holding a resolved promise, and no loop is
suspended anywhere.  Nothing ever clears it again, so `stale` is
absorbing for `connect()`/`reconnect()`: both return that resolved
promise at netmon.js 42-43 and their awaiters resolve immediately. -/
inductive LoopState where
  | idle
  | awaitEndpoint
  | awaitOpen (w : Nat)
  | backoff (ms : Nat)
  | stale
deriving DecidableEq, Repr

/-- The error values this core constructs (`new Error(...)` sites). -/
inductive Err where
  | cancelled
  | resolverFailed
  | socket (code : Nat)
  | disconnected (reason : Nat)
  | pongTimeout
deriving DecidableEq, Repr

/-- The value passed to the registered message handler: `undefined`
(binary frame shorter than 8 bytes), a parsed JSON object (text frame,
tracked by its `id` field), or a sliced `Buffer` payload. -/
inductive MsgVal where
  | undef
  | jsonObj (id : Option Nat)
  | buf (payload : List Nat)
deriving DecidableEq, Repr

/-- Observable effects of one atomic step. -/
inductive Eff where
  | callback (cb : Nat) (e : Err)
  | invokeHandler (h : Nat) (m : MsgVal)
  | closeWs (w : Nat)
  | createWs (w : Nat)
  | ping (w : Nat)
  | connectResolved
  | joinExisting
  | attemptFailed (e : Err)
  | logError
  | unhandledRejection
deriving DecidableEq, Repr

/-- The mutable fields of a `NetworkMonitor` object.  `pendingConnect`,
`connected`, `ws`, `pending`, `handler`, `_keepAliveTimeout` are the
constructor's fields; `idleWait` is the sleeping continuation of the
`pong` listener (`await new Promise(resolve => setTimeout(resolve, 10000))`);
`loop` is the reconnect IIFE's suspension point (`connectPromise` is
non-null exactly when `loop` is not `idle`). -/
structure NMState where
  pendingConnect : Bool
  connected : Bool
  ws : Option Nat
  pending : List (Nat × Nat)
  handler : Option Nat
  keepAlive : Option (Nat × Nat)
  idleWait : Option (Nat × Nat)
  loop : LoopState
  nextWs : Nat
deriving DecidableEq, Repr

/-- The constructor's state: `connected = false`, `connectPromise = null`,
`handler = null`, `_keepAliveTimeout = null`; `pendingConnect` and
`pending` are `undefined` (falsy / no entries) until first assigned. -/
def initNM : NMState :=
  { pendingConnect := false, connected := false, ws := none, pending := []
    handler := none, keepAlive := none, idleWait := none
    loop := LoopState.idle, nextWs := 0 }

/-- Buffer.readUInt32LE at offset 0: the little-endian unsigned 32-bit
integer formed by the first four bytes. -/
def readUInt32LE (data : List Nat) : Nat :=
  data.getD 0 0 + data.getD 1 0 * 256 + data.getD 2 0 * 65536 +
    data.getD 3 0 * 16777216

/-- An inbound frame: a text frame (tracked by its parsed `id` field) or a
binary frame (a byte sequence). -/
inductive WireData where
  | text (id : Option Nat)
  | binary (bytes : List Nat)
deriving DecidableEq, Repr

/-- The decode prefix of the `message` listener: for a string,
`message = JSON.parse(data); id = message['id']`; for a buffer of length
at least 8, `id = data.readUInt32LE(0); message = data.slice(8)`;
otherwise `id` and `message` stay `undefined`. -/
def decodeWire : WireData → Option Nat × MsgVal
  | WireData.text id => (id, MsgVal.jsonObj id)
  | WireData.binary bytes =>
      if 8 ≤ bytes.length then
        (some (readUInt32LE bytes), MsgVal.buf (bytes.drop 8))
      else (none, MsgVal.undef)

/-- The outcome of one handler invocation: a synchronous `throw`; the
promise `Promise.resolve(handler(message))` resolving to a value whose
truthiness is `b`; or that promise rejecting (an asynchronous handler
throwing after its first suspension — `Promise.resolve` adopts the
rejection rather than absorbing it). -/
inductive HOutcome where
  | throws
  | resolves (b : Bool)
  | rejects
deriving DecidableEq, Repr

/-- Map.delete on the integer-keyed `pending` table; deleting the key
`undefined` (`id = none`) leaves every integer-keyed entry in place. -/
def pendingDelete (id : Option Nat) (m : List (Nat × Nat)) : List (Nat × Nat) :=
  match id with
  | some i => m.filter (fun p => p.1 ≠ i)
  | none => m

/-- The body of `_disconnect()` (netmon.js 210-220): clear `connected`,
`handler`, stop the keep-alive timer, close and clear `this.ws` if
present.  The sleeping `pong` continuation (`idleWait`) cannot be
cancelled and is left in place. -/
def _disconnect (s : NMState) : NMState × List Eff :=
  let s1 := { s with connected := false, handler := none, keepAlive := none }
  match s1.ws with
  | some w => ({ s1 with ws := none }, [Eff.closeWs w])
  | none => (s1, [])

/-- The body of `disconnect()` (netmon.js 205-208):
`this.pendingConnect = false; this._disconnect();`. -/
def disconnect (s : NMState) : NMState × List Eff :=
  _disconnect { s with pendingConnect := false }

/-- The body of `reconnect()` (netmon.js 38-59) together with the part of
its IIFE that runs synchronously before the first suspension: if
connected, `this.disconnect()`; if `this.connectPromise` is non-null —
whether a suspended loop or the `stale` resolved promise — return it
(`joinExisting`); otherwise start the IIFE, which checks
`while (this.pendingConnect)` — when true, `_connect()` begins by
resetting `this.pending = new Map()` and suspends awaiting
`this.instance.netmonEndpoint()`; when false, the loop body completes
synchronously, its promise resolves at once, and the outer assignment
then stores that resolved promise into `connectPromise`, overwriting the
body's own `this.connectPromise = null`: the `stale` state. -/
def reconnect (s : NMState) : NMState × List Eff :=
  let r := if s.connected then disconnect s else (s, [])
  let s1 := r.1
  if s1.loop ≠ LoopState.idle then (s1, r.2 ++ [Eff.joinExisting])
  else if s1.pendingConnect then
    ({ s1 with loop := LoopState.awaitEndpoint, pending := [] }, r.2)
  else ({ s1 with loop := LoopState.stale }, r.2 ++ [Eff.connectResolved])

/-- The body of `connect()` (netmon.js 28-32):
`this.pendingConnect = true; if (!this.connected) await this.reconnect();`
— when already connected, the call resolves at once. -/
def connect (s : NMState) : NMState × List Eff :=
  let s1 := { s with pendingConnect := true }
  if s1.connected then (s1, [Eff.connectResolved]) else reconnect s1

/-- The continuation of `_connect` once `netmonEndpoint()` resolves
(netmon.js 64-72): if `pendingConnect` was cleared while resolving, throw
`connection cancelled` — the loop's catch then suspends in the 1-second
backoff; otherwise `new WebSocket(endpoint)` allocates a fresh transport,
`this.ws = ws`, the `message`/`close` listeners are registered, and the
attempt suspends awaiting the open handshake. -/
def endpointResolved (s : NMState) : NMState × List Eff :=
  if s.pendingConnect then
    ({ s with ws := some s.nextWs, nextWs := s.nextWs + 1
              loop := LoopState.awaitOpen s.nextWs },
     [Eff.createWs s.nextWs])
  else
    ({ s with loop := LoopState.backoff 1000 }, [Eff.attemptFailed Err.cancelled])

/-- `netmonEndpoint()` rejects: the rejection propagates out of
`_connect`, the loop's catch suspends in the 1-second backoff. -/
def endpointFailed (s : NMState) : NMState × List Eff :=
  ({ s with loop := LoopState.backoff 1000 }, [Eff.attemptFailed Err.resolverFailed])

/-- The 1-second backoff timer elapses: the loop re-checks
`while (this.pendingConnect)` — when true, `_connect()` starts over
(resetting `this.pending = new Map()`, suspending at endpoint
resolution); when false, the loop exits, `this.connectPromise = null`,
and the promise resolves without error. -/
def backoffElapsed (s : NMState) : NMState × List Eff :=
  if s.pendingConnect then
    ({ s with loop := LoopState.awaitEndpoint, pending := [] }, [])
  else ({ s with loop := LoopState.idle }, [Eff.connectResolved])

/-- The body of `_startKeepAlive()` (netmon.js 154-179): if not connected,
return; otherwise `ws.ping()` on the current transport and arm the
10-second deadline timer watching it.  In every reachable state
`connected` implies `ws` is present, so the `none` branch (where the
source would dereference null) is unreachable. -/
def _startKeepAlive (s : NMState) : NMState × List Eff :=
  if s.connected then
    match s.ws with
    | some w => ({ s with keepAlive := some (w, 10000) }, [Eff.ping w])
    | none => (s, [])
  else (s, [])

/-- The `open` listener on transport `w` (netmon.js 106-135) together
with the continuations it unblocks: if `this.ws !== ws` the just-opened
socket is closed and the attempt's promise is rejected with
`connection cancelled` — the loop's catch then suspends in the 1-second
backoff.  Otherwise the persistent `error` listener is registered, the
promise resolves, `_connect`'s continuation sets `this.connected = true`
and runs `_startKeepAlive()`, and the loop breaks: `connectPromise`
becomes null and the `connect()` caller's promise resolves. -/
def onOpen (w : Nat) (s : NMState) : NMState × List Eff :=
  if s.ws = some w then
    let r := _startKeepAlive { s with connected := true }
    ({ r.1 with loop := LoopState.idle }, r.2 ++ [Eff.connectResolved])
  else
    ({ s with loop := LoopState.backoff 1000 },
     [Eff.closeWs w, Eff.attemptFailed Err.cancelled])

/-- The pre-open `error` listener on transport `w` (netmon.js 137-147):
`_disconnect()` when the socket is canonical, else close it; either way
the open promise is rejected and the loop's catch suspends in the
1-second backoff. -/
def onErrorBeforeOpen (w code : Nat) (s : NMState) : NMState × List Eff :=
  let r := if s.ws = some w then _disconnect s else (s, [Eff.closeWs w])
  ({ r.1 with loop := LoopState.backoff 1000 },
   r.2 ++ [Eff.attemptFailed (Err.socket code)])

/-- An `error` event on transport `w` after its open handshake completed.
Both listeners attached to `error` fire in registration order: first the
pre-open once-listener (netmon.js 137-147), whose `reject` on the
already-settled promise is a no-op; then the persistent listener
registered inside `open` (netmon.js 117-132), which fails every entry of
`this.pending`, resets the table, and `_disconnect`s when the socket is
still canonical (after the first listener it no longer is, so it is
closed again instead). -/
def onErrorAfterOpen (w code : Nat) (s : NMState) : NMState × List Eff :=
  let r1 := if s.ws = some w then _disconnect s else (s, [Eff.closeWs w])
  let s1 := r1.1
  let cbs := s1.pending.map (fun p => Eff.callback p.2 (Err.socket code))
  let s2 := { s1 with pending := [] }
  let r3 := if s2.ws = some w then _disconnect s2 else (s2, [Eff.closeWs w])
  (r3.1, r1.2 ++ cbs ++ r3.2)

/-- The `close` listener (netmon.js 98-104).  It is registered on every
created transport and — unlike the `open`, `pong` and keep-alive
callbacks — performs no `this.ws === ws` staleness check: whatever
transport it fires on, it invokes every callback currently in
`this.pending` with the `disconnected <reason>` error, resets the table
and runs `_disconnect()`. -/
def onClose (reason : Nat) (s : NMState) : NMState × List Eff :=
  let cbs := s.pending.map (fun p => Eff.callback p.2 (Err.disconnected reason))
  let r := _disconnect { s with pending := [] }
  (r.1, cbs ++ r.2)

/-- The `message` listener (netmon.js 74-96).  Like `close` it performs
no staleness check and consults the current `this.handler` and
`this.pending`.  The decode and the `handler(message)` call sit in a
`try`: a synchronous throw is caught and logged.  When the handler's
promise resolves, the `.then` continuation deletes the frame's id from
`this.pending` exactly when the resolved value is truthy.  When the
handler's promise rejects, the `.then` at 88-91 installs no rejection
handler and the surrounding try/catch has already returned, so the
rejection is neither caught nor logged by this code: it surfaces as an
unhandled promise rejection, and the fulfillment continuation never
runs. -/
def onMessage (outcome : HOutcome) (data : WireData) (s : NMState) :
    NMState × List Eff :=
  match s.handler with
  | none => (s, [])
  | some h =>
    let d := decodeWire data
    match outcome with
    | HOutcome.throws => (s, [Eff.invokeHandler h d.2, Eff.logError])
    | HOutcome.rejects => (s, [Eff.invokeHandler h d.2, Eff.unhandledRejection])
    | HOutcome.resolves b =>
        (if b then { s with pending := pendingDelete d.1 s.pending } else s,
         [Eff.invokeHandler h d.2])

/-- The `pong` listener armed by `_startKeepAlive` on transport `w`
(netmon.js 181-191): a pong for a transport that is no longer canonical
returns at once; otherwise the deadline timer is cleared and the
continuation sleeps for the fixed 10000 ms idle interval. -/
def onPong (w : Nat) (s : NMState) : NMState × List Eff :=
  if s.ws = some w then
    ({ s with keepAlive := none, idleWait := some (w, 10000) }, [])
  else (s, [])

/-- The idle sleep after a pong elapses: the continuation calls
`_startKeepAlive()` again. -/
def onIdleElapsed (s : NMState) : NMState × List Eff :=
  _startKeepAlive { s with idleWait := none }

/-- The keep-alive deadline timer armed over transport `w` fires
(netmon.js 162-179): when `w` is no longer canonical it is merely
closed; otherwise every pending callback is invoked with the
pong-timeout error, the table is reset and `_disconnect()` runs.
Nothing here (or in `_disconnect`) restarts the reconnect loop. -/
def onKeepAliveTimeout (w : Nat) (s : NMState) : NMState × List Eff :=
  if s.ws = some w then
    let cbs := s.pending.map (fun p => Eff.callback p.2 Err.pongTimeout)
    let r := _disconnect { s with pending := [] }
    (r.1, cbs ++ r.2)
  else (s, [Eff.closeWs w])

/-- The body of `handleMessage(handler)` (netmon.js 229-231). -/
def handleMessage (h : Nat) (s : NMState) : NMState × List Eff :=
  ({ s with handler := some h }, [])

/-- Modelled from the spec: registering an in-flight request in the
`pending` table (spec section 3: a mapping from correlation-id to
response-callback for requests awaiting a reply).  No code under `src/`
inserts into `this.pending`; this is the missing producer, faithful to
the spec's words: it binds correlation id `i` to callback `cb`. -/
def registerPending (i cb : Nat) (s : NMState) : NMState × List Eff :=
  ({ s with pending := (i, cb) :: (s.pending.filter (fun p => p.1 ≠ i)) }, [])

/-- One event of the environment or of a caller. -/
inductive Ev where
  | connectCall
  | reconnectCall
  | disconnectCall
  | handleMessageCall (h : Nat)
  | registerPendingCall (i cb : Nat)
  | endpointOk
  | endpointErr
  | backoffDone
  | openEv (w : Nat)
  | errBeforeOpen (w code : Nat)
  | errAfterOpen (w code : Nat)
  | closeEv (w reason : Nat)
  | msgEv (w : Nat) (data : WireData) (outcome : HOutcome)
  | pongEv (w : Nat)
  | idleDone
  | keepAliveFire (w : Nat)
deriving DecidableEq, Repr

/-- One atomic step.  The transport argument of `closeEv` and `msgEv` is
which socket the event fired on: the source's listeners for these two
events never consult it, so the step is independent of it. -/
def step : Ev → NMState → NMState × List Eff
  | Ev.connectCall, s => connect s
  | Ev.reconnectCall, s => reconnect s
  | Ev.disconnectCall, s => disconnect s
  | Ev.handleMessageCall h, s => handleMessage h s
  | Ev.registerPendingCall i cb, s => registerPending i cb s
  | Ev.endpointOk, s => endpointResolved s
  | Ev.endpointErr, s => endpointFailed s
  | Ev.backoffDone, s => backoffElapsed s
  | Ev.openEv w, s => onOpen w s
  | Ev.errBeforeOpen w c, s => onErrorBeforeOpen w c s
  | Ev.errAfterOpen w c, s => onErrorAfterOpen w c s
  | Ev.closeEv _ reason, s => onClose reason s
  | Ev.msgEv _ data outcome, s => onMessage outcome data s
  | Ev.pongEv w, s => onPong w s
  | Ev.idleDone, s => onIdleElapsed s
  | Ev.keepAliveFire w, s => onKeepAliveTimeout w s

/-- Run a sequence of events, accumulating effects. -/
def run : List Ev → NMState → NMState × List Eff
  | [], s => (s, [])
  | e :: es, s =>
    let r1 := step e s
    let r2 := run es r1.1
    (r2.1, r1.2 ++ r2.2)

end Netmon

namespace Netmon

lemma exists_len_four (a : List Nat) (ha : a.length = 4) :
    ∃ x0 x1 x2 x3, a = [x0, x1, x2, x3] := by
  rcases a with _ | ⟨x0, _ | ⟨x1, _ | ⟨x2, _ | ⟨x3, rest⟩⟩⟩⟩ <;> simp_all

/-- C8: for a binary frame of length at least 8 — written as a 4-byte id
block `a`, a 4-byte reserved block `b`, and payload `c` — the decoded
correlation id is the little-endian uint32 of bytes `[0..4)`, the handler
is invoked with the payload `bytes[8..)`, and the reserved block `b`
affects neither (the decode result never mentions it). -/
theorem C8_binary_framing (a b c : List Nat) (s : NMState) (h : Nat)
    (o : HOutcome) (ha : a.length = 4) (hb : b.length = 4)
    (hh : s.handler = some h) :
    decodeWire (WireData.binary (a ++ b ++ c)) =
      (some (readUInt32LE a), MsgVal.buf c)
    ∧ Eff.invokeHandler h (MsgVal.buf c) ∈
        (onMessage o (WireData.binary (a ++ b ++ c)) s).2 := by
  obtain ⟨a0, a1, a2, a3, rfl⟩ := exists_len_four a ha
  obtain ⟨b0, b1, b2, b3, rfl⟩ := exists_len_four b hb
  have hd : decodeWire (WireData.binary
      (a0 :: a1 :: a2 :: a3 :: b0 :: b1 :: b2 :: b3 :: c)) =
      (some (readUInt32LE [a0, a1, a2, a3]), MsgVal.buf c) := by
    simp [decodeWire, readUInt32LE]
  refine ⟨by simpa using hd, ?_⟩
  cases o with
  | throws => simp [onMessage, hh, hd]
  | resolves bv => simp [onMessage, hh, hd]
  | rejects => simp [onMessage, hh, hd]

/-- C8 witness: a frame with id 42, an arbitrary reserved block and a
3-byte payload dispatches a payload of length 3 under id 42. -/
theorem C8_binary_framing_witness :
    decodeWire (WireData.binary ([42, 0, 0, 0] ++ [7, 7, 7, 7] ++ [1, 2, 3])) =
      (some 42, MsgVal.buf [1, 2, 3])
    ∧ Eff.invokeHandler 6 (MsgVal.buf [1, 2, 3]) ∈
        (onMessage (HOutcome.resolves true)
          (WireData.binary ([42, 0, 0, 0] ++ [7, 7, 7, 7] ++ [1, 2, 3]))
          { initNM with handler := some 6 }).2
    ∧ ([1, 2, 3] : List Nat).length = 3 := by
  have := C8_binary_framing [42, 0, 0, 0] [7, 7, 7, 7] [1, 2, 3]
    { initNM with handler := some 6 } 6 (HOutcome.resolves true) rfl rfl rfl
  exact ⟨by simpa [readUInt32LE] using this.1, this.2, rfl⟩

/-- C9 (amended): for a dispatched message, a truthy handler resolution
removes the message's correlation id from `pending`, a falsy resolution
leaves the state unchanged, and a synchronous handler throw is caught:
the listener returns normally with the state unchanged and the error
merely logged.  An asynchronous handler's rejection, however, is not
handled: the `.then` continuation installs no rejection handler, so the
exception is neither caught nor logged by this code — it surfaces as an
unhandled promise rejection (the state is still unchanged, since the
fulfillment continuation never runs). -/
theorem C9_handler_outcomes (s : NMState) (h i : Nat) (d : WireData)
    (hh : s.handler = some h) :
    ((decodeWire d).1 = some i →
      onMessage (HOutcome.resolves true) d s =
        ({ s with pending := s.pending.filter (fun p => p.1 ≠ i) },
         [Eff.invokeHandler h (decodeWire d).2]))
    ∧ onMessage (HOutcome.resolves false) d s =
        (s, [Eff.invokeHandler h (decodeWire d).2])
    ∧ onMessage HOutcome.throws d s =
        (s, [Eff.invokeHandler h (decodeWire d).2, Eff.logError])
    ∧ onMessage HOutcome.rejects d s =
        (s, [Eff.invokeHandler h (decodeWire d).2, Eff.unhandledRejection]) := by
  refine ⟨fun hi => ?_, ?_, ?_, ?_⟩
  · simp [onMessage, hh, pendingDelete, hi]
  · simp [onMessage, hh]
  · simp [onMessage, hh]
  · simp [onMessage, hh]

/-- C9 counterexample: an asynchronous handler whose promise rejects.
The dispatched exception is neither caught nor logged — the effects
carry `unhandledRejection` and no `logError` — refuting the claim that
any exception thrown by the (possibly asynchronous) handler is caught
and logged. -/
theorem C9_async_rejection_counterexample :
    onMessage HOutcome.rejects (WireData.text (some 3))
      { initNM with handler := some 4, pending := [(3, 8)] } =
      ({ initNM with handler := some 4, pending := [(3, 8)] },
       [Eff.invokeHandler 4 (MsgVal.jsonObj (some 3)), Eff.unhandledRejection])
    ∧ Eff.logError ∉
        (onMessage HOutcome.rejects (WireData.text (some 3))
          { initNM with handler := some 4, pending := [(3, 8)] }).2 := by
  decide

/-- C9 witness: at a concrete state with one pending entry, a truthy
resolution for id 3 removes it, a falsy one and a throw leave the state
unchanged, and an asynchronous rejection is dispatched unhandled. -/
theorem C9_handler_outcomes_witness :
    onMessage (HOutcome.resolves true) (WireData.text (some 3))
      { initNM with handler := some 4, pending := [(3, 8)] } =
      ({ initNM with handler := some 4, pending := [] },
       [Eff.invokeHandler 4 (MsgVal.jsonObj (some 3))])
    ∧ onMessage (HOutcome.resolves false) (WireData.text (some 3))
        { initNM with handler := some 4, pending := [(3, 8)] } =
        ({ initNM with handler := some 4, pending := [(3, 8)] },
         [Eff.invokeHandler 4 (MsgVal.jsonObj (some 3))])
    ∧ onMessage HOutcome.throws (WireData.text (some 3))
        { initNM with handler := some 4, pending := [(3, 8)] } =
        ({ initNM with handler := some 4, pending := [(3, 8)] },
         [Eff.invokeHandler 4 (MsgVal.jsonObj (some 3)), Eff.logError])
    ∧ onMessage HOutcome.rejects (WireData.text (some 3))
        { initNM with handler := some 4, pending := [(3, 8)] } =
        ({ initNM with handler := some 4, pending := [(3, 8)] },
         [Eff.invokeHandler 4 (MsgVal.jsonObj (some 3)),
          Eff.unhandledRejection]) := by
  have := C9_handler_outcomes
    { initNM with handler := some 4, pending := [(3, 8)] } 4 3
    (WireData.text (some 3)) rfl
  refine ⟨?_, ?_, ?_, ?_⟩
  · have h1 := this.1 rfl
    simpa using h1
  · simpa using this.2.1
  · simpa using this.2.2.1
  · simpa using this.2.2.2

/-- C10: a binary frame shorter than 8 bytes decodes to an undefined id
and an undefined message; the handler is still invoked (with
`undefined`), and whatever the handler returns, the integer-keyed
`pending` table is unchanged (deleting the key `undefined` touches no
integer-keyed entry). -/
theorem C10_short_binary (s : NMState) (h : Nat) (bytes : List Nat)
    (o : HOutcome) (hh : s.handler = some h) (hl : bytes.length < 8) :
    decodeWire (WireData.binary bytes) = (none, MsgVal.undef)
    ∧ Eff.invokeHandler h MsgVal.undef ∈
        (onMessage o (WireData.binary bytes) s).2
    ∧ (onMessage o (WireData.binary bytes) s).1.pending = s.pending := by
  have hd : decodeWire (WireData.binary bytes) = (none, MsgVal.undef) := by
    simp [decodeWire]
    omega
  refine ⟨hd, ?_, ?_⟩
  · cases o with
    | throws => simp [onMessage, hh, hd]
    | resolves bv => simp [onMessage, hh, hd]
    | rejects => simp [onMessage, hh, hd]
  · cases o with
    | throws => simp [onMessage, hh, hd]
    | resolves bv =>
        cases bv <;> simp [onMessage, hh, hd, pendingDelete]
    | rejects => simp [onMessage, hh, hd]

/-- C10 witness: a 3-byte frame at a state with one pending entry is
dispatched as `undefined` and leaves the table untouched even when the
handler resolves truthy. -/
theorem C10_short_binary_witness :
    decodeWire (WireData.binary [1, 2, 3]) = (none, MsgVal.undef)
    ∧ Eff.invokeHandler 4 MsgVal.undef ∈
        (onMessage (HOutcome.resolves true) (WireData.binary [1, 2, 3])
          { initNM with handler := some 4, pending := [(3, 8)] }).2
    ∧ (onMessage (HOutcome.resolves true) (WireData.binary [1, 2, 3])
          { initNM with handler := some 4, pending := [(3, 8)] }).1.pending =
        ({ initNM with handler := some 4, pending := [(3, 8)] } : NMState).pending :=
  C10_short_binary { initNM with handler := some 4, pending := [(3, 8)] } 4
    [1, 2, 3] (HOutcome.resolves true) rfl (by decide)

end Netmon

namespace Netmon

/-- C3: while a reconnect attempt is in flight (`connectPromise` non-null,
i.e. `loop` not idle), a further `reconnect()` — or `connect()`, which
delegates to it — starts no second attempt loop: the suspension point,
the pending table and the transport counter are untouched, no socket is
created, no separate resolution is produced, and the caller is handed the
in-flight attempt's promise (`joinExisting`). -/
theorem C3_single_flight (s : NMState) (hl : s.loop ≠ LoopState.idle) :
    (reconnect s).1.loop = s.loop
    ∧ (reconnect s).1.pending = s.pending
    ∧ (reconnect s).1.nextWs = s.nextWs
    ∧ Eff.joinExisting ∈ (reconnect s).2
    ∧ Eff.connectResolved ∉ (reconnect s).2
    ∧ (∀ w, Eff.createWs w ∉ (reconnect s).2)
    ∧ (s.connected = false →
        (connect s).1.loop = s.loop
        ∧ Eff.joinExisting ∈ (connect s).2
        ∧ Eff.connectResolved ∉ (connect s).2
        ∧ ∀ w, Eff.createWs w ∉ (connect s).2) := by
  cases hc : s.connected <;>
    cases hw : s.ws <;>
      simp [reconnect, connect, disconnect, _disconnect, hl, hc, hw]

def sC3 : NMState :=
  { initNM with loop := LoopState.awaitEndpoint, pendingConnect := true }

/-- C3 witness: at a state whose reconnect loop is suspended awaiting
endpoint resolution, both entry points coalesce onto it. -/
theorem C3_single_flight_witness :
    (reconnect sC3).1.loop = sC3.loop
    ∧ (reconnect sC3).1.pending = sC3.pending
    ∧ (reconnect sC3).1.nextWs = sC3.nextWs
    ∧ Eff.joinExisting ∈ (reconnect sC3).2
    ∧ Eff.connectResolved ∉ (reconnect sC3).2
    ∧ (∀ w, Eff.createWs w ∉ (reconnect sC3).2)
    ∧ (sC3.connected = false →
        (connect sC3).1.loop = sC3.loop
        ∧ Eff.joinExisting ∈ (connect sC3).2
        ∧ Eff.connectResolved ∉ (connect sC3).2
        ∧ ∀ w, Eff.createWs w ∉ (connect sC3).2) :=
  C3_single_flight sC3 (by decide)

/-- C5: an open attempt never promotes a non-canonical transport.  When
`pendingConnect` was cleared during endpoint resolution, the attempt
fails with the cancellation error before any socket exists (the state
changes only by the loop suspending in the backoff — in particular no
transport is allocated and `ws` is untouched); when the open handshake of
a transport that is no longer canonical completes, that socket is closed
and the attempt fails with the cancellation error, with `ws` and
`connected` untouched. -/
theorem C5_no_stale_promotion (s : NMState) (w : Nat) :
    (s.pendingConnect = false →
      endpointResolved s =
        ({ s with loop := LoopState.backoff 1000 },
         [Eff.attemptFailed Err.cancelled]))
    ∧ (s.ws ≠ some w →
      onOpen w s =
        ({ s with loop := LoopState.backoff 1000 },
         [Eff.closeWs w, Eff.attemptFailed Err.cancelled])) := by
  constructor
  · intro hp
    simp [endpointResolved, hp]
  · intro hw
    simp [onOpen, hw]

/-- C5 witness: both cancellation paths at the initial state. -/
theorem C5_no_stale_promotion_witness :
    endpointResolved initNM =
      ({ initNM with loop := LoopState.backoff 1000 },
       [Eff.attemptFailed Err.cancelled])
    ∧ onOpen 0 initNM =
        ({ initNM with loop := LoopState.backoff 1000 },
         [Eff.closeWs 0, Eff.attemptFailed Err.cancelled]) :=
  ⟨(C5_no_stale_promotion initNM 0).1 rfl,
   (C5_no_stale_promotion initNM 0).2 (by decide)⟩

/-- C7: `disconnect()` clears `pendingConnect` (cancelling the reconnect
loop and any open attempt at their next check), sets `connected := false`,
clears the handler, stops the heartbeat, and closes and clears the
transport; the outstanding `pending` callbacks are then all invoked with
the disconnection error when the closed transport's `close` event is
delivered, after which the table is empty; and on a state that is already
fully disconnected the call is a no-op with no effects. -/
theorem C7_disconnect (s : NMState) (w reason : Nat) :
    (disconnect s).1 =
      { s with pendingConnect := false, connected := false,
               handler := none, keepAlive := none, ws := none }
    ∧ (s.ws = some w → (disconnect s).2 = [Eff.closeWs w])
    ∧ (s.ws = none → (disconnect s).2 = [])
    ∧ ((step (Ev.closeEv w reason) (disconnect s).1).2 =
        s.pending.map (fun p => Eff.callback p.2 (Err.disconnected reason))
      ∧ (step (Ev.closeEv w reason) (disconnect s).1).1.pending = [])
    ∧ (s.pendingConnect = false → s.connected = false → s.ws = none →
        s.handler = none → s.keepAlive = none → disconnect s = (s, [])) := by
  obtain ⟨pc, co, ws, pd, hd, ka, iw, lp, nw⟩ := s
  refine ⟨?_, ?_, ?_, ?_, ?_⟩
  · cases ws <;> simp [disconnect, _disconnect]
  · intro hw
    simp_all [disconnect, _disconnect]
  · intro hw
    simp_all [disconnect, _disconnect]
  · cases ws <;> simp [disconnect, _disconnect, step, onClose]
  · intro h1 h2 h3 h4 h5
    simp_all [disconnect, _disconnect]

/-- C7 witness: disconnecting a live connected state with one pending
entry, then delivering the socket's close event, fails that entry with
the disconnection error and empties the table; and `disconnect()` on the
pristine state is a no-op. -/
def sC7 : NMState :=
  { initNM with
      connected := true
      pendingConnect := true
      ws := some 0
      pending := [(3, 9)]
      handler := some 1
      keepAlive := some (0, 10000)
      nextWs := 1 }

theorem C7_disconnect_witness :
    (disconnect sC7).1 = { initNM with pending := [(3, 9)], nextWs := 1 }
    ∧ (step (Ev.closeEv 0 2) (disconnect sC7).1).2 =
        [Eff.callback 9 (Err.disconnected 2)]
    ∧ disconnect initNM = (initNM, []) := by
  have h1 := C7_disconnect sC7 0 2
  have h2 := C7_disconnect initNM 0 2
  refine ⟨by simpa [sC7, initNM] using h1.1, ?_, h2.2.2.2.2 rfl rfl rfl rfl rfl⟩
  simpa [sC7] using h1.2.2.2.1.1

end Netmon

namespace Netmon

/-- One failed attempt followed by its 1-second backoff expiring while the
caller still wants the connection: the loop retries. -/
def failCycle (s : NMState) : NMState := (backoffElapsed (endpointFailed s).1).1

lemma failCycle_eq (s : NMState) (hp : s.pendingConnect = true) :
    failCycle s = { s with loop := LoopState.awaitEndpoint, pending := [] } := by
  simp [failCycle, endpointFailed, backoffElapsed, hp]

lemma failCycle_iter (n : Nat) (s : NMState) (hp : s.pendingConnect = true)
    (hl : s.loop = LoopState.awaitEndpoint) :
    (failCycle^[n] s).loop = LoopState.awaitEndpoint
    ∧ (failCycle^[n] s).pendingConnect = true := by
  induction n generalizing s with
  | zero => exact ⟨hl, hp⟩
  | succ n ih =>
      rw [Function.iterate_succ_apply, failCycle_eq s hp]
      exact ih _ (by simpa using hp) (by simp)

lemma reconnect_resolved_state (s : NMState) :
    Eff.connectResolved ∈ (reconnect s).2 →
      (reconnect s).1.pendingConnect = false := by
  cases hc : s.connected <;>
    cases hw : s.ws <;>
      cases hp : s.pendingConnect <;>
        cases hlp : s.loop <;>
          simp_all [reconnect, disconnect, _disconnect]

end Netmon

namespace Netmon

lemma mem_udisconnect_eff (s : NMState) :
    ∀ x ∈ (_disconnect s).2, ∃ w, x = Eff.closeWs w := by
  unfold _disconnect
  cases hw : s.ws <;> simp

lemma connect_resolved_state (s : NMState) :
    Eff.connectResolved ∈ (connect s).2 →
      (connect s).1.connected = true ∨ (connect s).1.pendingConnect = false := by
  by_cases hc : s.connected = true
  · intro _
    left
    simp [connect, hc]
  · intro h
    right
    have hm : Eff.connectResolved ∈ (reconnect { s with pendingConnect := true }).2 := by
      simpa [connect, hc] using h
    simpa [connect, hc] using reconnect_resolved_state _ hm

/-- C4 (amended): the reconnect-loop policy.  An endpoint-resolution
failure or an open failure moves the loop into the fixed 1000 ms backoff
without surfacing anything to the caller; when the backoff elapses the
loop retries exactly when `pendingConnect` still holds and otherwise
exits without error; a successful open exits the loop with
`connected = true` and resolves the caller; `n` consecutive
failure/backoff cycles leave the loop attempting for every `n` (no retry
cap); across every event of the system, the loop's own completion
(`connectResolved`) happens only in a step that leaves the monitor
connected or whose `pendingConnect` is cleared; and `reconnect()` on a
connected monitor force-closes the current transport first.  However,
entering `reconnect()` with no loop in flight and `pendingConnect` false
— in particular calling it directly while connected, since its own
force-close clears `pendingConnect` — leaves the Connection in the
`stale` state (the synchronously-completed IIFE's resolved promise
overwrites the inner clearing of `connectPromise`), and from then on a
`connect()` call is handed that already-resolved promise and resolves
immediately without establishing a connection, starting no loop. -/
theorem C4_reconnect_loop_policy (s : NMState) (w code n : Nat) (e : Ev) :
    endpointFailed s = ({ s with loop := LoopState.backoff 1000 },
                        [Eff.attemptFailed Err.resolverFailed])
    ∧ ((onErrorBeforeOpen w code s).1.loop = LoopState.backoff 1000
        ∧ Eff.connectResolved ∉ (onErrorBeforeOpen w code s).2)
    ∧ (s.pendingConnect = true →
        backoffElapsed s =
          ({ s with loop := LoopState.awaitEndpoint, pending := [] }, []))
    ∧ (s.pendingConnect = false →
        backoffElapsed s = ({ s with loop := LoopState.idle },
                            [Eff.connectResolved]))
    ∧ (s.ws = some w →
        (onOpen w s).1.loop = LoopState.idle
        ∧ (onOpen w s).1.connected = true
        ∧ Eff.connectResolved ∈ (onOpen w s).2)
    ∧ (s.pendingConnect = true → s.loop = LoopState.awaitEndpoint →
        (failCycle^[n] s).loop = LoopState.awaitEndpoint
        ∧ (failCycle^[n] s).pendingConnect = true)
    ∧ (Eff.connectResolved ∈ (step e s).2 →
        (step e s).1.connected = true ∨ (step e s).1.pendingConnect = false)
    ∧ (s.connected = true → s.ws = some w → Eff.closeWs w ∈ (reconnect s).2)
    ∧ (s.loop = LoopState.idle →
        (s.connected = true ∨ s.pendingConnect = false) →
        (reconnect s).1.loop = LoopState.stale)
    ∧ (s.loop = LoopState.stale → s.connected = false →
        connect s = ({ s with pendingConnect := true }, [Eff.joinExisting])) := by
  refine ⟨rfl, ⟨rfl, ?_⟩, fun hp => by simp [backoffElapsed, hp],
    fun hp => by simp [backoffElapsed, hp],
    fun hw => by simp [onOpen, hw, _startKeepAlive],
    fun hp hl => failCycle_iter n s hp hl, ?_, fun hc hw => ?_,
    fun hl hor => ?_, fun hl hc => by simp [connect, reconnect, hc, hl]⟩
  · intro h
    have hm : Eff.connectResolved ∈
        ((if s.ws = some w then _disconnect s else (s, [Eff.closeWs w])).2 ++
          [Eff.attemptFailed (Err.socket code)]) := by
      simpa [onErrorBeforeOpen] using h
    rcases List.mem_append.1 hm with hm | hm
    · by_cases hw : s.ws = some w
      · rw [if_pos hw] at hm
        obtain ⟨w', hw'⟩ := mem_udisconnect_eff s _ hm
        simp at hw'
      · rw [if_neg hw] at hm
        simp at hm
    · simp at hm
  · intro h
    cases e with
    | connectCall => exact connect_resolved_state s h
    | reconnectCall => exact Or.inr (reconnect_resolved_state s h)
    | disconnectCall =>
        obtain ⟨w', hw'⟩ := mem_udisconnect_eff _ _ h
        simp at hw'
    | handleMessageCall h' => simp [step, handleMessage] at h
    | registerPendingCall i cb => simp [step, registerPending] at h
    | endpointOk =>
        by_cases hp : s.pendingConnect = true <;>
          simp [step, endpointResolved, hp] at h
    | endpointErr => simp [step, endpointFailed] at h
    | backoffDone =>
        by_cases hp : s.pendingConnect = true
        · simp [step, backoffElapsed, hp] at h
        · right
          simp [step, backoffElapsed, hp]
    | openEv w' =>
        by_cases hw : s.ws = some w'
        · left
          simp [step, onOpen, hw, _startKeepAlive]
        · simp [step, onOpen, hw] at h
    | errBeforeOpen w' c' =>
        by_cases hw : s.ws = some w' <;>
          simp [step, onErrorBeforeOpen, _disconnect, hw] at h
    | errAfterOpen w' c' =>
        by_cases hw : s.ws = some w' <;>
          simp [step, onErrorAfterOpen, _disconnect, hw] at h
    | closeEv w' r' =>
        cases hw : s.ws <;> simp [step, onClose, _disconnect, hw] at h
    | msgEv w' d' o' =>
        cases hh : s.handler with
        | none => simp [step, onMessage, hh] at h
        | some hv =>
            cases o' with
            | throws => simp [step, onMessage, hh] at h
            | resolves b => simp [step, onMessage, hh] at h
            | rejects => simp [step, onMessage, hh] at h
    | pongEv w' =>
        by_cases hw : s.ws = some w' <;> simp [step, onPong, hw] at h
    | idleDone =>
        cases hc : s.connected <;>
          cases hw : s.ws <;>
            simp [step, onIdleElapsed, _startKeepAlive, hc, hw] at h
    | keepAliveFire w' =>
        by_cases hw : s.ws = some w' <;>
          simp [step, onKeepAliveTimeout, _disconnect, hw] at h
  · cases hlp : s.loop <;> simp [reconnect, disconnect, _disconnect, hc, hw, hlp]
  · cases hc : s.connected <;>
      cases hw : s.ws <;>
        simp_all [reconnect, disconnect, _disconnect]

/-- A run that connects and opens transport 0, then calls `reconnect()`
directly: its internal `disconnect()` clears `pendingConnect`, the IIFE
body completes synchronously, and the outer assignment stores the
resolved promise — the Connection is left in the `stale` state. -/
def c4state : NMState :=
  (run [Ev.connectCall, Ev.endpointOk, Ev.openEv 0, Ev.reconnectCall]
    initNM).1

/-- C4 counterexample: after the trace above, `connectPromise`
permanently holds an already-resolved promise (`loop = stale`).  The
subsequent `connect()` sets `pendingConnect` and is handed that resolved
promise (netmon.js 42-43), so its `await` completes immediately — yet
the step leaves `connected = false` with `pendingConnect = true` (no
connection established, no cancellation) and starts no attempt (the
`stale` state persists and the hand-back is the only effect).  This
refutes the claim's clause that `connect()` resolves only once a
connection is actually established or the caller cancels via
`disconnect()`. -/
theorem C4_stale_promise_counterexample :
    c4state.loop = LoopState.stale
    ∧ c4state.connected = false
    ∧ c4state.pendingConnect = false
    ∧ (step Ev.connectCall c4state).1.pendingConnect = true
    ∧ (step Ev.connectCall c4state).1.connected = false
    ∧ (step Ev.connectCall c4state).1.loop = LoopState.stale
    ∧ (step Ev.connectCall c4state).2 = [Eff.joinExisting] := by
  decide

end Netmon

namespace Netmon

/-- C6 (amended): the heartbeat.  On a successful open of the canonical
transport a probe is sent immediately and the 10000 ms deadline timer is
armed over it; an acknowledgment for the canonical transport cancels the
deadline and arms the fixed 10000 ms idle sleep without sending a probe
(the next probe is emitted only when the idle sleep elapses, and then the
deadline is re-armed); an acknowledgment for a non-canonical transport is
ignored outright; and when the deadline fires on the canonical transport,
every pending callback is invoked with the timeout error, the table is
reset and the connection is force-closed — the reconnect loop's
suspension point is untouched, so no reconnection is started. -/
theorem C6_heartbeat (s : NMState) (w : Nat) :
    (s.ws = some w →
      (onOpen w s).1.keepAlive = some (w, 10000)
      ∧ Eff.ping w ∈ (onOpen w s).2)
    ∧ (s.ws = some w →
      onPong w s = ({ s with keepAlive := none, idleWait := some (w, 10000) }, []))
    ∧ (s.ws ≠ some w → onPong w s = (s, []))
    ∧ (s.connected = true → s.ws = some w →
      onIdleElapsed s =
        ({ s with idleWait := none, keepAlive := some (w, 10000) }, [Eff.ping w]))
    ∧ (s.ws = some w →
      onKeepAliveTimeout w s =
        ({ s with pending := [], connected := false, handler := none
                  keepAlive := none, ws := none },
         s.pending.map (fun p => Eff.callback p.2 Err.pongTimeout) ++
           [Eff.closeWs w])
      ∧ (onKeepAliveTimeout w s).1.loop = s.loop) := by
  refine ⟨fun hw => ?_, fun hw => by simp [onPong, hw],
    fun hw => by simp [onPong, hw], fun hc hw => ?_, fun hw => ⟨?_, ?_⟩⟩
  · simp [onOpen, hw, _startKeepAlive]
  · simp [onIdleElapsed, _startKeepAlive, hc, hw]
  · simp [onKeepAliveTimeout, _disconnect, hw]
  · simp [onKeepAliveTimeout, _disconnect, hw]

/-- C6 witness: the heartbeat behaviors at a concrete connected state
with one pending entry. -/
theorem C6_heartbeat_witness :
    (onOpen 0 sC7).1.keepAlive = some (0, 10000)
    ∧ Eff.ping 0 ∈ (onOpen 0 sC7).2
    ∧ onPong 0 sC7 =
        ({ sC7 with keepAlive := none, idleWait := some (0, 10000) }, [])
    ∧ onPong 3 sC7 = (sC7, [])
    ∧ onIdleElapsed sC7 =
        ({ sC7 with idleWait := none, keepAlive := some (0, 10000) },
         [Eff.ping 0])
    ∧ onKeepAliveTimeout 0 sC7 =
        ({ sC7 with pending := [], connected := false, handler := none
                    keepAlive := none, ws := none },
         [Eff.callback 9 Err.pongTimeout, Eff.closeWs 0]) := by
  have h1 := C6_heartbeat sC7 0
  have h2 := C6_heartbeat sC7 3
  refine ⟨(h1.1 rfl).1, (h1.1 rfl).2, h1.2.1 rfl, h2.2.2.1 (by decide),
    h1.2.2.2.1 rfl rfl, ?_⟩
  have h3 := (h1.2.2.2.2 rfl).1
  simpa [sC7] using h3

/-- A run that connects, registers one in-flight request, and then gets
no pong acknowledgment: the state just before the keep-alive deadline
fires. -/
def c6state : NMState :=
  (run [Ev.connectCall, Ev.endpointOk, Ev.openEv 0,
        Ev.registerPendingCall 1 5] initNM).1

/-- C6 counterexample: when the keep-alive deadline fires with `desired`
(`pendingConnect`) still true, the pending callback is failed with the
timeout error and the connection is force-closed, but the reconnect
loop is NOT re-entered: the loop stays `idle` (no attempt in flight),
`connected` stays false and no socket is ever created, refuting the
claim's final clause. -/
theorem C6_no_reconnect_counterexample :
    c6state.pendingConnect = true
    ∧ c6state.connected = true
    ∧ c6state.ws = some 0
    ∧ c6state.keepAlive = some (0, 10000)
    ∧ Eff.callback 5 Err.pongTimeout ∈ (onKeepAliveTimeout 0 c6state).2
    ∧ (onKeepAliveTimeout 0 c6state).1.connected = false
    ∧ (onKeepAliveTimeout 0 c6state).1.pendingConnect = true
    ∧ (onKeepAliveTimeout 0 c6state).1.loop = LoopState.idle
    ∧ (∀ w, Eff.createWs w ∉ (onKeepAliveTimeout 0 c6state).2) := by
  refine ⟨rfl, rfl, rfl, rfl, by decide, rfl, rfl, rfl, ?_⟩
  intro w
  have : (onKeepAliveTimeout 0 c6state).2 =
      [Eff.callback 5 Err.pongTimeout, Eff.closeWs 0] := by decide
  simp [this]

end Netmon

namespace Netmon

/-- A full execution: connect and open transport 0, register a handler,
disconnect, reconnect and open transport 1, register a new handler and
one in-flight request.  Transport 0's `close` event (its closing
handshake completing late) has not yet been delivered. -/
def c1trace : List Ev :=
  [Ev.connectCall, Ev.endpointOk, Ev.openEv 0, Ev.handleMessageCall 1,
   Ev.disconnectCall, Ev.connectCall, Ev.endpointOk, Ev.openEv 1,
   Ev.handleMessageCall 2, Ev.registerPendingCall 5 7]

def c1state : NMState := (run c1trace initNM).1

/-- C1 (refutation by execution): at `c1state` the canonical transport is
1 and transport 0 is superseded, yet the late `close` event of
transport 0 invokes the pending callback 7 (entered under transport 1)
with a disconnection error, resets `connected` from true to false,
clears the canonical transport (closing socket 1), and a superseded
transport's `message` event still invokes the currently registered
handler — the `close`/`message` listeners have no staleness check. -/
theorem C1_stale_transport_mutates :
    c1state.ws = some 1
    ∧ c1state.connected = true
    ∧ c1state.pending = [(5, 7)]
    ∧ c1state.handler = some 2
    ∧ (step (Ev.closeEv 0 3) c1state).1.connected = false
    ∧ (step (Ev.closeEv 0 3) c1state).1.ws = none
    ∧ (step (Ev.closeEv 0 3) c1state).1.pending = []
    ∧ Eff.callback 7 (Err.disconnected 3) ∈ (step (Ev.closeEv 0 3) c1state).2
    ∧ Eff.closeWs 1 ∈ (step (Ev.closeEv 0 3) c1state).2
    ∧ Eff.invokeHandler 2 (MsgVal.buf [9]) ∈
        (step (Ev.msgEv 0 (WireData.binary [0, 0, 0, 0, 0, 0, 0, 0, 9])
          (HOutcome.resolves false)) c1state).2 := by
  decide

/-- A full execution: connect and open transport 0, register one
in-flight request (id 3, callback 9), disconnect, then reconnect before
transport 0's close event is delivered; the late close event arrives
last. -/
def c2trace : List Ev :=
  [Ev.connectCall, Ev.endpointOk, Ev.openEv 0, Ev.registerPendingCall 3 9,
   Ev.disconnectCall, Ev.connectCall, Ev.endpointOk, Ev.openEv 1,
   Ev.closeEv 0 2]

/-- C2 (refutation by execution): after `disconnect()` the entry
(3, 9) is still outstanding in `pending`, but the reconnect's `_connect`
resets the table before transport 0's close event can fire, so across
the entire execution — late close event included — callback 9 is never
invoked: the outstanding entry is silently discarded rather than failed
exactly once. -/
theorem C2_entry_silently_discarded :
    (run [Ev.connectCall, Ev.endpointOk, Ev.openEv 0,
          Ev.registerPendingCall 3 9, Ev.disconnectCall] initNM).1.pending =
      [(3, 9)]
    ∧ ((run c2trace initNM).2.all
        (fun x => match x with
          | Eff.callback 9 _ => false
          | _ => true)) = true := by
  decide

end Netmon
